import Mathlib

/-!
Verification of the mixxxdb media-catalog maintenance tool.

The development shallowly embeds the two data-access layers of the
repository and the maintenance operations built on them:

* `schemas.py` — the `BaseSchema` row classes driven by per-class column
  tuples, together with the cascading `bulk_delete` chain
  `TrackLocation → Track → {Cue, CrateTrack, PlaylistTrack, TrackAnalysis}`,
  the catalog-side orphan scan, and the generic `update`/`delete`/`list`
  statements they issue.
* `db.py` / `models.py` — the descriptor-based `Model` classes with typed
  `Field` objects, their validation check, rebuilt `list`/`update`/
  `bulk_delete` statements, and the class-level `_meta` state that is
  mutated at instance construction.
* `mixxxdb.py` — `move_files` (file relocation with catalog update and
  rollback of the rename on catalog failure) and `list_orphan_files`.

Rows of the SQLite catalog are modelled as association lists of column
name to stored value, mirroring the dynamic attribute binding of
`BaseSchema.__init__`; the six tables of the catalog are explicit lists of
such rows.  SQL statements are embedded by their effect on this state.
Two SQLite behaviours that the generated SQL relies on are part of the
model: an empty `IN ()` list is accepted and matches nothing, while an
empty parenthesised condition `()` is a syntax error; and identity columns
carry INTEGER affinity, so the quoted literals produced by
`schemas.BaseSchema.update`/`delete` compare equal to integer-stored ids.
Filesystem and environment effects (directory listings, renames, statement
failures) enter as explicit function parameters.
-/

set_option autoImplicit false

namespace Mixxxdb

/-- A value stored in (or bound for) an SQLite column. -/
inductive DbVal where
  | null
  | int (i : Int)
  | text (s : String)
  | real (num : Int) (den : Int)
  | blob (bs : List Nat)
  deriving DecidableEq, Repr

/-- A fetched row as bound by `BaseSchema.__init__`: an association of
column names to stored values (Python instances bind fetched columns as
dynamic attributes, so an association list is the faithful shape). -/
abbrev Row := List (String × DbVal)

/-- Attribute read on a row instance (`getattr(row, c)` through the
instance dictionary); `none` models a missing attribute. -/
def getAttr (r : Row) (c : String) : Option DbVal :=
  match r with
  | [] => none
  | (k, v) :: t => if k == c then some v else getAttr t c

/-- Attribute write on a row instance (`setattr(row, c, v)` through the
instance dictionary): replaces the entry when the attribute exists,
otherwise adds it. -/
def setAttrRow (r : Row) (c : String) (v : DbVal) : Row :=
  match r with
  | [] => [(c, v)]
  | (k, w) :: t => if k == c then (k, v) :: t else (k, w) :: setAttrRow t c v

/-- The six tables of the mixxx catalog. -/
inductive Table where
  | track_locations
  | library
  | cues
  | crate_tracks
  | playlistTracks
  | track_analysis
  deriving DecidableEq, Repr

/-- The catalog state: the contents of the six tables. -/
structure Catalog where
  track_locations : List Row
  library : List Row
  cues : List Row
  crate_tracks : List Row
  playlistTracks : List Row
  track_analysis : List Row
  deriving DecidableEq, Repr

def Catalog.get (cat : Catalog) : Table → List Row
  | Table.track_locations => cat.track_locations
  | Table.library => cat.library
  | Table.cues => cat.cues
  | Table.crate_tracks => cat.crate_tracks
  | Table.playlistTracks => cat.playlistTracks
  | Table.track_analysis => cat.track_analysis

def Catalog.set (cat : Catalog) : Table → List Row → Catalog
  | Table.track_locations, rs => { cat with track_locations := rs }
  | Table.library, rs => { cat with library := rs }
  | Table.cues, rs => { cat with cues := rs }
  | Table.crate_tracks, rs => { cat with crate_tracks := rs }
  | Table.playlistTracks, rs => { cat with playlistTracks := rs }
  | Table.track_analysis, rs => { cat with track_analysis := rs }

/-- The Python exceptions the embedded code can raise. -/
inductive PyErr where
  | typeError
  | valueError
  | operationalError
  | attributeError
  | ioError
  deriving DecidableEq, Repr

/-- Embeds `col IN (i1, i2, …)` with the literals produced by `str(...)` on the
identity attributes.  Identity attributes are integers fetched from
INTEGER-affinity columns, so a row matches exactly when its stored column
is an integer occurring in the list; a stored NULL never matches. -/
def rowIdIn (r : Row) (c : String) (ids : List DbVal) : Bool :=
  match getAttr r c with
  | some (DbVal.int i) => ids.contains (DbVal.int i)
  | _ => false

/-- Embeds the quoted equality comparison the update and delete statements generate: under the
INTEGER affinity of the identity columns a quoted integer literal compares
equal to the stored integer; a quoted text literal compares as text; a
stored NULL never matches an equality. -/
def rowIdEq (r : Row) (c : String) (v : Option DbVal) : Bool :=
  match getAttr r c, v with
  | some (DbVal.int i), some (DbVal.int j) => i == j
  | some (DbVal.text s), some (DbVal.text u) => s == u
  | _, _ => false

/-- Embeds `", ".join([str(getattr(obj, id_column)) for obj in objs])`, kept as
the list of attribute values it renders. -/
def renderedIds (objs : List Row) (c : String) : List DbVal :=
  objs.map (fun o => (getAttr o c).getD DbVal.null)

/-! ### schemas.py: the BaseSchema engine -/

/-- Column tuples of the `schemas.py` classes (and the field-name lists of
the corresponding `models.py` classes, which declare the same names). -/
def trackLocationColumns : List String :=
  ["id", "location", "filename", "directory", "filesize", "fs_deleted",
   "needs_verification"]

def trackColumns : List String :=
  ["id", "artist", "title", "album", "year", "genre", "tracknumber",
   "location", "comment", "url", "duration", "bitrate", "samplerate",
   "cuepoint", "bpm", "wavesummaryhex", "channels", "datetime_added",
   "mixxx_deleted", "played", "header_parsed", "filetype", "replaygain",
   "timesplayed", "rating", "key", "beats", "beats_version", "composer",
   "bpm_lock", "beats_sub_version", "keys", "keys_version",
   "keys_sub_version", "key_id", "grouping", "album_artist",
   "coverart_source", "coverart_type", "coverart_location",
   "coverart_hash", "replaygain_peak", "tracktotal", "color"]

def crateTrackColumns : List String := ["crate_id", "track_id"]

/-- Embeds `BaseSchema.bulk_delete`: raises when the class declares no identity
column, otherwise issues
`DELETE FROM table WHERE id_column IN (rendered ids)`.  With no objects
the rendered list is empty and SQLite accepts `IN ()` as matching
nothing. -/
def schBulkDelete (cat : Catalog) (t : Table) (idcol : Option String)
    (objs : List Row) : Except PyErr Catalog :=
  match idcol with
  | none => Except.error PyErr.valueError
  | some c =>
      Except.ok (cat.set t
        ((cat.get t).filter (fun r => ! rowIdIn r c (renderedIds objs c))))

/-- Embeds `HasTrackForeignKey.delete_by_track_id`:
`DELETE FROM table WHERE track_id IN (ids)`. -/
def deleteByTrackId (cat : Catalog) (t : Table) (ids : List DbVal) :
    Catalog :=
  cat.set t ((cat.get t).filter (fun r => ! rowIdIn r "track_id" ids))

/-- The argument handed to a `cls(**row)` call: either a mapping (as the
dict comprehensions in `db_fetchall` build) or a bare fetched tuple (as
`Track.list_by_locations` hands over). -/
inductive PyArg where
  | dict (kv : List (String × DbVal))
  | tup (vs : List DbVal)
  deriving DecidableEq, Repr

/-- Embeds `cls(**arg)`: the double-star operator requires a mapping, so a tuple
raises `TypeError` before any attribute is bound; a mapping binds every
pair as an attribute, which for the association-list row model is the
mapping itself. -/
def newFromArg (a : PyArg) : Except PyErr Row :=
  match a with
  | PyArg.dict kv => Except.ok kv
  | PyArg.tup _ => Except.error PyErr.typeError

/-- Embeds `Track.list_by_locations`: fetches
`SELECT columns FROM library WHERE location IN (location ids)` and then
builds `cls(**row)` from each fetched row.  The fetched rows are plain
tuples (no row factory is installed), so construction raises `TypeError`
on the first row whenever the result set is non-empty. -/
def listByLocations (cat : Catalog) (locs : List Row) :
    Except PyErr (List Row) :=
  let ids := renderedIds locs "id"
  let lst := cat.library.filter (fun r => rowIdIn r "location" ids)
  lst.mapM (fun r =>
    newFromArg (PyArg.tup (trackColumns.map (fun c => (getAttr r c).getD DbVal.null))))

/-- Embeds `schemas.Track.bulk_delete`: purges PlaylistTracks, crate memberships,
cues and analyses of the given tracks by `track_id`, then deletes the
tracks themselves. -/
def schTrackBulkDelete (cat : Catalog) (objs : List Row) :
    Except PyErr Catalog :=
  let track_ids := renderedIds objs "id"
  let cat1 := deleteByTrackId cat Table.playlistTracks track_ids
  let cat2 := deleteByTrackId cat1 Table.crate_tracks track_ids
  let cat3 := deleteByTrackId cat2 Table.cues track_ids
  let cat4 := deleteByTrackId cat3 Table.track_analysis track_ids
  schBulkDelete cat4 Table.library (some "id") objs

/-- Embeds `schemas.TrackLocation.bulk_delete`: lists the tracks referencing the
given locations, bulk-deletes them (with their dependents), then deletes
the location rows. -/
def schTrackLocationBulkDelete (cat : Catalog) (objs : List Row) :
    Except PyErr Catalog := do
  let tracks ← listByLocations cat objs
  let cat1 ← schTrackBulkDelete cat tracks
  schBulkDelete cat1 Table.track_locations (some "id") objs

/-! ### Path operations (posixpath / pathlib boundary) -/

/-- Embeds `s.startswith(pre)` on the underlying character lists. -/
def strStartsWith (s pre : String) : Bool :=
  pre.data.isPrefixOf s.data

/-- Embeds `s.endswith(suf)` on the underlying character lists. -/
def strEndsWith (s suf : String) : Bool :=
  suf.data.reverse.isPrefixOf s.data.reverse

/-- Embeds `os.path.dirname`: the prefix up to the last slash; a non-empty head
that is not all slashes has its trailing slashes stripped.
`dirname "x" = ""`, `dirname "/a" = "/"`, `dirname "/a/b" = "/a"`. -/
def posixDirname (p : String) : String :=
  let head := (p.data.reverse.dropWhile (fun c => c ≠ '/')).reverse
  if head.isEmpty || head.all (fun c => c = '/') then String.mk head
  else String.mk ((head.reverse.dropWhile (fun c => c = '/')).reverse)

def stripTrailingSlashes (p : String) : String :=
  String.mk ((p.data.reverse.dropWhile (fun c => c = '/')).reverse)

/-- Embeds `pathlib.PurePath.name`: the last non-empty path component. -/
def pathName (p : String) : String :=
  let q := stripTrailingSlashes p
  String.mk ((q.data.reverse.takeWhile (fun c => c ≠ '/')).reverse)

/-- Embeds `destdir.joinpath(name)` rendered back to a string, for a relative
`name` as produced by `pathName`. -/
def pathJoin (d n : String) : String :=
  if strEndsWith d "/" then d ++ n else d ++ "/" ++ n

/-- Embeds `str(path.parent)` of `pathlib` for an already-normalised path:
`parent "/d/x" = "/d"`, `parent "/x" = "/"`, `parent "x" = "."`. -/
def pathParent (p : String) : String :=
  let q := stripTrailingSlashes p
  let head := (q.data.reverse.dropWhile (fun c => c ≠ '/')).reverse
  if head.isEmpty then "."
  else if head.all (fun c => c = '/') then String.mk head
  else String.mk ((head.reverse.dropWhile (fun c => c = '/')).reverse)

/-! ### schemas.py: catalog-side orphan scan -/

/-- Embeds `os.listdir(d)` wrapped in the `try/except FileNotFoundError` of
`list_orphans`: a missing directory (`fs d = none`) yields an empty
listing. -/
def fsListdir (fs : String → Option (List String)) (d : String) :
    List String :=
  (fs d).getD []

/-- Statement-side accessor for the recorded path of a location row; the
scan itself computes directories through `locDirname`, which raises on a
non-string value. -/
def locText (l : Row) : String :=
  match getAttr l "location" with
  | some (DbVal.text s) => s
  | _ => ""

/-- Embeds `os.path.dirname(l.location)`: a non-string recorded path — in
particular a stored NULL — raises `TypeError`. -/
def locDirname (l : Row) : Except PyErr String :=
  match getAttr l "location" with
  | some (DbVal.text s) => Except.ok (posixDirname s)
  | _ => Except.error PyErr.typeError

/-- Embeds the membership test `l.filename in entries` of the scan: true
only when the filename is a string equal to one of the listed entries (a
NULL or otherwise non-string filename equals none of them and raises
nothing). -/
def fnMatches (l : Row) (entries : List String) : Bool :=
  match getAttr l "filename" with
  | some (DbVal.text s) => entries.contains s
  | _ => false

/-- The distinct parent directories the scan lists
(`set(os.path.dirname(l.location) for l in locations)`). -/
def schListedDirs (locations : List Row) : List String :=
  (locations.map (fun l => posixDirname (locText l))).dedup

/-- Embeds `schemas.TrackLocation.list_orphans`: fetch all location rows
and compute every parent directory — the comprehension raises `TypeError`
at the first NULL recorded path; then list each distinct parent directory
once (a missing directory listing as empty) and keep every row whose
filename is absent from the listing of its parent directory. -/
def schListOrphans (fs : String → Option (List String))
    (locations : List Row) : Except PyErr (List Row) := do
  let dirnames ← locations.mapM locDirname
  let dirs : List (String × List String) :=
    dirnames.dedup.map (fun d => (d, fsListdir fs d))
  Except.ok (locations.filter (fun l =>
    match dirs.find? (fun p => p.1 == posixDirname (locText l)) with
    | some p => ! fnMatches l p.2
    | none => false))

/-! ### mixxxdb.py: filesystem-side orphan scan -/

/-- Embeds `mimetype[0] and mimetype[0].startswith("audio/")` on the result of
`mimetypes.guess_type`. -/
def mimeIsAudio (g : Option String) : Bool :=
  match g with
  | some t => strStartsWith t "audio/"
  | none => false

/-- Embeds `list_orphan_files` with the filesystem boundary explicit: `paths` is
the glob of the root (recursive or flat), `isFile` the regular-file test,
`guess` the content-type sniffer and `resolve` path resolution;
`locations` is the list of recorded `TrackLocation.location` strings,
compared verbatim.  The result is the sequence of reported paths. -/
def listOrphanFiles (paths : List String) (isFile : String → Bool)
    (guess : String → Option String) (resolve : String → String)
    (locations : List String) : List String :=
  paths.filter (fun p =>
    isFile p && mimeIsAudio (guess p) && ! locations.contains (resolve p))

/-- Modelled from the spec for comparison with `listOrphanFiles`: the
claim states that the recorded locations are ALSO resolved to absolute
form before the membership test. -/
def specOrphanFiles (paths : List String) (isFile : String → Bool)
    (guess : String → Option String) (resolve : String → String)
    (locations : List String) : List String :=
  paths.filter (fun p =>
    isFile p && mimeIsAudio (guess p)
      && ! (locations.map resolve).contains (resolve p))

/-! ### mixxxdb.py: the move transaction

`move_files` renames files on disk and rewrites the matching
`track_locations` rows through `BaseSchema.update`.  The environment
enters as an oracle: `renameOk` decides whether a given rename call
succeeds, `updateOk` whether the n-th issued UPDATE statement succeeds
(statement failures are environmental: locked database, I/O errors, or
malformed literals from the unescaped quoting), `resolve` models
`Path.resolve`, and `isDir` the `destdir.is_dir()` test.  The mutable
world is the set of existing file paths, the stored catalog rows, and the
in-memory list of fetched location instances (the closure variable
`locations`, whose objects are mutated before each UPDATE and keep their
mutated values even when the UPDATE fails). -/

structure MoveEnv where
  renameOk : String → String → Bool
  updateOk : Nat → Bool
  resolve : String → String
  isDir : String → Bool

structure MvSt where
  files : List String
  rows : List Row
  mem : List Row
  updCount : Nat
  deriving DecidableEq, Repr

/-- Embeds `os.rename` semantics of `Path.rename`: the source path stops
existing and the destination path exists (silently replacing a file
already there). -/
def renameFile (files : List String) (src dst : String) : List String :=
  (files.erase src).insert dst

/-- The row written by the generated UPDATE statement as
generated by `BaseSchema.update`: every declared non-identity column of
the stored row is replaced by the attribute value of the in-memory
instance `r`. -/
def sqlUpdateRow (columns : List String) (idcol : String) (r q : Row) :
    Row :=
  match q with
  | [] => []
  | (k, w) :: t =>
      (k, if k != idcol && columns.contains k then
            (getAttr r k).getD DbVal.null
          else w) :: sqlUpdateRow columns idcol r t

/-- One `BaseSchema.update` call applied to a table: rows whose identity
column equals the identity attribute of `r` are rewritten. -/
def sqlUpdateTable (rows : List Row) (columns : List String)
    (idcol : String) (r : Row) : List Row :=
  rows.map (fun q =>
    if rowIdEq q idcol (getAttr r idcol) then sqlUpdateRow columns idcol r q
    else q)

/-- Mutate the in-memory instance at index `i`
(`location.location = …` / `location.directory = …`). -/
def memSet (mem : List Row) (i : Nat) (c : String) (v : DbVal) :
    List Row :=
  mem.set i (setAttrRow ((mem.get? i).getD []) c v)

/-- The indices of the in-memory instances matched by
`[l for l in locations if l.location == str(srcpath.resolve())]`. -/
def matchingIdxs (mem : List Row) (resolvedSrc : String) : List Nat :=
  (List.range mem.length).filter (fun i =>
    getAttr ((mem.get? i).getD []) "location"
      == some (DbVal.text resolvedSrc))

/-- The body of `update_db`: walk the matched instances in order; mutate
each instance, then attempt its UPDATE.  A failing statement aborts the
loop with the exception flag set — the instances mutated so far stay
mutated and the statements already issued stay committed. -/
def updateDbLoop (env : MoveEnv) (destpath : String) (idxs : List Nat)
    (st : MvSt) : MvSt × Bool :=
  match idxs with
  | [] => (st, false)
  | i :: rest =>
      let mem2 := memSet (memSet st.mem i "location" (DbVal.text destpath))
        i "directory" (DbVal.text (pathParent destpath))
      if env.updateOk st.updCount then
        let self := (mem2.get? i).getD []
        let rows2 := sqlUpdateTable st.rows trackLocationColumns "id" self
        updateDbLoop env destpath rest
          { files := st.files, rows := rows2, mem := mem2,
            updCount := st.updCount + 1 }
      else
        ({ st with mem := mem2, updCount := st.updCount + 1 }, true)

/-- Processing of one requested source inside the `for source in sources`
loop: skip silently unless the source is an existing regular file; rename
it into the destination directory (a rename failure is reported and the
catalog left untouched for this source); then run `update_db`, undoing
the rename when the catalog update raises.  The undo rename itself is
unguarded in the source, so its failure propagates out of `move_files`. -/
def processSource (env : MoveEnv) (destdir : String) (st : MvSt)
    (source : String) : Except PyErr MvSt :=
  if st.files.contains source then
    let destpath := pathJoin destdir (pathName source)
    if env.renameOk source destpath then
      let stR := { st with files := renameFile st.files source destpath }
      match updateDbLoop env destpath
          (matchingIdxs stR.mem (env.resolve source)) stR with
      | (st1, false) => Except.ok st1
      | (st1, true) =>
          if env.renameOk destpath source then
            Except.ok { st1 with files := renameFile st1.files destpath source }
          else Except.error PyErr.ioError
    else Except.ok st
  else Except.ok st

def processList (env : MoveEnv) (destdir : String) (st : MvSt)
    (sources : List String) : Except PyErr MvSt :=
  sources.foldlM (fun s src => processSource env destdir s src) st

/-- Embeds `move_files`: fetch the location rows, resolve the destination,
reject a destination that is not an existing directory, then process the
sources in order. -/
def moveFiles (env : MoveEnv) (files0 : List String) (rows0 : List Row)
    (sources : List String) (destination : String) : Except PyErr MvSt :=
  let st0 : MvSt := { files := files0, rows := rows0, mem := rows0,
                      updCount := 0 }
  let destdir := env.resolve destination
  if ! env.isDir destdir then Except.error PyErr.valueError
  else processList env destdir st0 sources

/-! ### db.py: typed fields and the Model engine

`db.py` declares descriptor classes `Field[T]` with a declared native
type, nullability, default, and current value.  Python values are
modelled by `PyVal` and the declared native types by `PyTy`; the
`isinstance` test includes the CPython subtlety that `bool` is a subclass
of `int`.  Float payloads are carried as a rational stand-in (no float
arithmetic is modelled), datetimes by their ISO string. -/

inductive PyTy where
  | intTy
  | strTy
  | floatTy
  | boolTy
  | bytesTy
  | datetimeTy
  deriving DecidableEq, Repr

inductive PyVal where
  | vnone
  | vint (i : Int)
  | vbool (b : Bool)
  | vstr (s : String)
  | vfloat (num : Int) (den : Int)
  | vbytes (bs : List Nat)
  | vdatetime (iso : String)
  deriving DecidableEq, Repr

/-- Embeds `isinstance(value, declared_type)`; `vnone` is an instance of none of
the field types, and a `bool` is an instance of `int`. -/
def isinstance : PyVal → PyTy → Bool
  | PyVal.vint _, PyTy.intTy => true
  | PyVal.vbool _, PyTy.intTy => true
  | PyVal.vbool _, PyTy.boolTy => true
  | PyVal.vstr _, PyTy.strTy => true
  | PyVal.vfloat _ _, PyTy.floatTy => true
  | PyVal.vbytes _, PyTy.bytesTy => true
  | PyVal.vdatetime _, PyTy.datetimeTy => true
  | _, _ => false

/-- Python truthiness, as used by `bool(value)` and `to_db_not_null` of
`BooleanField`. -/
def pyTruthy : PyVal → Bool
  | PyVal.vnone => false
  | PyVal.vint i => i != 0
  | PyVal.vbool b => b
  | PyVal.vstr s => s != ""
  | PyVal.vfloat num _ => num != 0
  | PyVal.vbytes bs => ! bs.isEmpty
  | PyVal.vdatetime _ => true

/-- Embeds `str(value)`. -/
def pyStrOf : PyVal → String
  | PyVal.vnone => "None"
  | PyVal.vint i => toString i
  | PyVal.vbool b => if b then "True" else "False"
  | PyVal.vstr s => s
  | PyVal.vfloat num den => toString num ++ "/" ++ toString den
  | PyVal.vbytes _ => "bytes"
  | PyVal.vdatetime s => s

/-- One `Field` descriptor: declared type, nullability, current value and
declared default (`max_length` of `CharField` carries no behaviour that
the claims touch). -/
structure PyField where
  ty : PyTy
  nullable : Bool
  value : PyVal
  default : PyVal
  deriving DecidableEq, Repr

/-- Embeds `Field.check`: raise `ValueError` when the current value is not an
instance of the declared type, unless it is None on a nullable field. -/
def fieldCheck (f : PyField) : Except PyErr Unit :=
  if ! isinstance f.value f.ty then
    if f.value != PyVal.vnone || ! f.nullable then
      Except.error PyErr.valueError
    else Except.ok ()
  else Except.ok ()

/-- Embeds `Model._check`: run `check` on every field, re-raising the first
`ValueError` (with the entity, column and value in the message). -/
def modelCheck : List (String × PyField) → Except PyErr Unit
  | [] => Except.ok ()
  | (_, f) :: rest =>
      match fieldCheck f with
      | Except.error _ => Except.error PyErr.valueError
      | Except.ok _ => modelCheck rest

/-- A single quote character, as it appears in the generated SQL
literals. -/
def sq : String := String.mk [Char.ofNat 39]

/-- Embeds `Field.to_db` composed with the per-class `to_db_not_null`: None
renders as `NULL`; text renders quote-escaped, datetimes as quoted ISO
strings, booleans as `1`/`0`, everything else through `str`. -/
def fieldToDb (ty : PyTy) (v : PyVal) : String :=
  match v with
  | PyVal.vnone => "NULL"
  | _ =>
      match ty with
      | PyTy.strTy => sq ++ (pyStrOf v).replace sq (sq ++ sq) ++ sq
      | PyTy.datetimeTy => sq ++ pyStrOf v ++ sq
      | PyTy.boolTy => if pyTruthy v then "1" else "0"
      | _ => pyStrOf v

/-- Embeds `Field.get_equals_expr`: an ` IS NULL` fragment for a None value,
otherwise `=literal`. -/
def fieldEqualsExpr (f : PyField) : String :=
  match f.value with
  | PyVal.vnone => " IS NULL"
  | v => "=" ++ fieldToDb f.ty v

/-- Embeds `"template" % args` for the `%s`-only templates of `db.py`: each
`%s` consumes one argument; surplus arguments raise
`TypeError: not all arguments converted`, missing arguments raise
`TypeError: not enough arguments`. -/
def pyFormatAux : List Char → List String → Except PyErr String
  | [], [] => Except.ok ""
  | [], _ :: _ => Except.error PyErr.typeError
  | '%' :: 's' :: rest, a :: args =>
      (pyFormatAux rest args).map (fun t => a ++ t)
  | '%' :: 's' :: _, [] => Except.error PyErr.typeError
  | c :: rest, args => (pyFormatAux rest args).map (fun t => String.mk [c] ++ t)

def pyFormatStr (tmpl : String) (args : List String) :
    Except PyErr String :=
  pyFormatAux tmpl.data args

/-- The table name rendered into the statements. -/
def tableName : Table → String
  | Table.track_locations => "track_locations"
  | Table.library => "library"
  | Table.cues => "cues"
  | Table.crate_tracks => "crate_tracks"
  | Table.playlistTracks => "PlaylistTracks"
  | Table.track_analysis => "track_analysis"

/-- A `models.py` row instance: its `_fields` mapping of column name to
descriptor copy. -/
abbrev MInst := List (String × PyField)

/-- Embeds `getattr(instance, c)` routed through `_fields` (the attribute-access
override returns the field value); `vnone`-defaulted lookup models only
instances that own the attribute, as every fetched instance does. -/
def instAttr (inst : MInst) (c : String) : PyVal :=
  ((inst.find? (fun p => p.1 == c)).map (fun p => p.2.value)).getD PyVal.vnone

/-- The field value a Python object stores into SQLite once the statement
executes (INTEGER affinity turns the `1`/`0` of booleans into stored
integers). -/
def pyToDbVal (v : PyVal) : DbVal :=
  match v with
  | PyVal.vnone => DbVal.null
  | PyVal.vint i => DbVal.int i
  | PyVal.vbool b => DbVal.int (if b then 1 else 0)
  | PyVal.vstr s => DbVal.text s
  | PyVal.vdatetime s => DbVal.text s
  | PyVal.vfloat num den => DbVal.real num den
  | PyVal.vbytes bs => DbVal.blob bs

/-- A placeholder field for the impossible missing-identity-field lookup
(`self._fields[id_column]` raises before any instance without the field
exists). -/
def dummyField : PyField :=
  { ty := PyTy.intTy, nullable := true, value := PyVal.vnone,
    default := PyVal.vnone }

/-- Embeds `Model.update`: refuse when the shared `get_id()` is None, run
`_check` over every field, then build
`"UPDATE %s SET %s WHERE %s" % (table, set_clause, id_column, where_expr)`.
The template holds three placeholders but four arguments are supplied
(the id column is a leftover — the fourth argument already contains it),
so the formatting raises `TypeError` before any statement is issued; the
`Except.ok` branch carries the write the statement would have performed
and is unreachable. -/
def modelUpdate (cat : Catalog) (t : Table) (idcol : String)
    (metaIdValue : PyVal) (fields : MInst) : Except PyErr Catalog := do
  if metaIdValue == PyVal.vnone then Except.error PyErr.valueError
  else do
    modelCheck fields
    let updates := (fields.filter (fun p => p.1 != idcol)).map
      (fun p => p.1 ++ fieldEqualsExpr p.2)
    let whereExpr := idcol ++ fieldEqualsExpr
      (((fields.find? (fun p => p.1 == idcol)).map (fun p => p.2)).getD dummyField)
    let _sql ← pyFormatStr "UPDATE %s SET %s WHERE %s"
      [tableName t, ", ".intercalate updates, idcol, whereExpr]
    Except.ok (cat.set t ((cat.get t).map (fun q =>
      if rowIdEq q idcol (some (pyToDbVal (instAttr fields idcol))) then
        q.map (fun p =>
          if p.1 == idcol then p else (p.1, pyToDbVal (instAttr fields p.1)))
      else q)))

/-! ### db.py: per-class instance state and the shared `_meta.id_field`

`Model.__init__` copies the class-level field template into the instance
(`self._fields = {k: copy(v) …}`) and then rebinds the class-shared
metadata object: `self._meta.id_field = self._fields[id_column]`.  The
observable consequences are modelled by an explicit state per model
class: the list of constructed instances (index = construction order)
and which instance the shared `id_field` currently aliases (`none` while
it still aliases the class template). -/

structure ClassState where
  instances : List MInst
  metaIdField : Option Nat
  deriving DecidableEq, Repr

/-- Embeds `to_python` per field class: identity, except `BooleanField` coerces
through `bool(...)` and `DatetimeField` parses an ISO string. -/
def toPython (ty : PyTy) (v : PyVal) : PyVal :=
  match ty with
  | PyTy.boolTy => PyVal.vbool (pyTruthy v)
  | PyTy.datetimeTy =>
      match v with
      | PyVal.vstr s => PyVal.vdatetime s
      | w => w
  | _ => v

/-- Embeds `Model.__init__(**kwargs)`: copy the template fields, rebind the
shared `_meta.id_field` to the fresh copy of the identity field (a
schema without the identity field in its template raises here), then
set each field value from `to_python` of the keyword argument, or None
when absent (the declared default is never consulted).  Returns the
index of the new instance. -/
def construct (baseFields : MInst) (idcol : String) (cs : ClassState)
    (kwargs : List (String × PyVal)) : Except PyErr (Nat × ClassState) :=
  if (baseFields.find? (fun p => p.1 == idcol)).isSome then
    let inst : MInst := baseFields.map (fun p =>
      match kwargs.find? (fun q => q.1 == p.1) with
      | some q => (p.1, { p.2 with value := toPython p.2.ty q.2 })
      | none => (p.1, { p.2 with value := PyVal.vnone }))
    Except.ok (cs.instances.length,
      { instances := cs.instances ++ [inst],
        metaIdField := some cs.instances.length })
  else Except.error PyErr.attributeError

/-- Attribute read on instance `i` (routed through its own `_fields`). -/
def getattrI (cs : ClassState) (i : Nat) (c : String) : Option PyVal :=
  (cs.instances.get? i).bind (fun inst =>
    (inst.find? (fun p => p.1 == c)).map (fun p => p.2.value))

/-- Attribute write on instance `i` (routed through its own `_fields`). -/
def setattrI (cs : ClassState) (i : Nat) (c : String) (v : PyVal) :
    ClassState :=
  let inst2 := ((cs.instances.get? i).getD []).map (fun p =>
    if p.1 == c then (p.1, { p.2 with value := v }) else p)
  { cs with instances := cs.instances.set i inst2 }

/-- Embeds `Model.get_id`: reads `self._meta.id_field.value` — the class-shared
metadata, not the own fields of the calling instance. -/
def getId (baseFields : MInst) (idcol : String) (cs : ClassState) : PyVal :=
  match cs.metaIdField with
  | some j => instAttr ((cs.instances.get? j).getD []) idcol
  | none => instAttr baseFields idcol

/-- The `WHERE` fragment `self.get_equals_expr(id_column)` that `delete`
and `update` aim at: built from the own field of the calling instance. -/
def whereExprI (cs : ClassState) (i : Nat) (idcol : String) : String :=
  idcol ++ fieldEqualsExpr
    (((((cs.instances.get? i).getD []).find? (fun p => p.1 == idcol)).map
      (fun p => p.2)).getD dummyField)

/-- Embeds `Model.delete` up to its statement: refuse when the shared
`get_id()` is None, otherwise target the rows named by the calling
own `WHERE` fragment of the calling instance. -/
def deleteI (baseFields : MInst) (idcol : String) (cs : ClassState)
    (i : Nat) : Except PyErr String :=
  if getId baseFields idcol cs == PyVal.vnone then
    Except.error PyErr.valueError
  else Except.ok (whereExprI cs i idcol)

/-- The field template of `models.TrackLocation`. -/
def tlBaseFields : MInst :=
  [("id", { ty := PyTy.intTy, nullable := false, value := PyVal.vnone,
            default := PyVal.vnone }),
   ("location", { ty := PyTy.strTy, nullable := true, value := PyVal.vnone,
                  default := PyVal.vnone }),
   ("directory", { ty := PyTy.strTy, nullable := true, value := PyVal.vnone,
                   default := PyVal.vnone }),
   ("filename", { ty := PyTy.strTy, nullable := true, value := PyVal.vnone,
                  default := PyVal.vnone }),
   ("filesize", { ty := PyTy.intTy, nullable := true, value := PyVal.vnone,
                  default := PyVal.vnone }),
   ("fs_deleted", { ty := PyTy.boolTy, nullable := true, value := PyVal.vnone,
                    default := PyVal.vnone }),
   ("needs_verification", { ty := PyTy.boolTy, nullable := true,
                            value := PyVal.vnone, default := PyVal.vnone })]

/-! ### Concrete catalog fixtures -/

/-- A full `library` row referencing location `loc`, all other columns
NULL. -/
def mkTrackRow (i : Int) (loc : DbVal) : Row :=
  [("id", DbVal.int i), ("location", loc)] ++
    (trackColumns.filter (fun c => c != "id" && c != "location")).map
      (fun c => (c, DbVal.null))

def exLoc1 : Row :=
  [("id", DbVal.int 1), ("location", DbVal.text "/music/a.mp3"),
   ("filename", DbVal.text "a.mp3"), ("directory", DbVal.text "/music"),
   ("filesize", DbVal.int 4096), ("fs_deleted", DbVal.int 0),
   ("needs_verification", DbVal.int 0)]

def exCue10 : Row :=
  [("id", DbVal.int 100), ("track_id", DbVal.int 10),
   ("type", DbVal.int 0), ("position", DbVal.int 0),
   ("length", DbVal.int 0), ("hotcue", DbVal.int (-1)),
   ("label", DbVal.text ""), ("color", DbVal.int 4294901760)]

/-- The field mapping of a fully populated `models.TrackLocation`
instance with valid values. -/
def exTLInst : MInst :=
  [("id", { ty := PyTy.intTy, nullable := false, value := PyVal.vint 1,
            default := PyVal.vnone }),
   ("location", { ty := PyTy.strTy, nullable := true,
                  value := PyVal.vstr "/music/a.mp3",
                  default := PyVal.vnone }),
   ("directory", { ty := PyTy.strTy, nullable := true,
                   value := PyVal.vstr "/music", default := PyVal.vnone }),
   ("filename", { ty := PyTy.strTy, nullable := true,
                  value := PyVal.vstr "a.mp3", default := PyVal.vnone }),
   ("filesize", { ty := PyTy.intTy, nullable := true,
                  value := PyVal.vint 4096, default := PyVal.vnone }),
   ("fs_deleted", { ty := PyTy.boolTy, nullable := true,
                    value := PyVal.vbool false, default := PyVal.vnone }),
   ("needs_verification", { ty := PyTy.boolTy, nullable := true,
                            value := PyVal.vbool false,
                            default := PyVal.vnone })]

/-- One location, one track referencing it, one cue on that track. -/
def exCat1 : Catalog :=
  { track_locations := [exLoc1],
    library := [mkTrackRow 10 (DbVal.int 1)],
    cues := [exCue10],
    crate_tracks := [[("crate_id", DbVal.int 5), ("track_id", DbVal.int 10)]],
    playlistTracks := [],
    track_analysis := [] }

/-! ### Small lemmas about the embedded statements -/

/-- C1 (code bug).  Deleting a referenced location through
`schemas.TrackLocation.bulk_delete` raises `TypeError` before any row is
deleted: `Track.list_by_locations` hands the raw fetched tuples to
`Track(**row)`, which requires a mapping.  The second conjunct shows the
fixture track does reference the deleted location, so the cascade was
supposed to fire; because the listing is the first statement of the
cascade, the catalog is untouched when the exception propagates. -/
theorem c1_cascade_crash :
    schTrackLocationBulkDelete exCat1 [exLoc1] = Except.error PyErr.typeError
      ∧ rowIdIn (mkTrackRow 10 (DbVal.int 1)) "location"
          (renderedIds [exLoc1] "id") = true := by
  exact ⟨rfl, rfl⟩

/-! ### C3: `delete()` and the cascade graph -/

def c8resolve : String → String :=
  fun p => if p == "a.mp3" then "/m/a.mp3" else p

/-- C8 (counterexample).  With a catalog that records `a.mp3` (a
relative spelling of `/m/a.mp3`) and a scan that encounters the audio
file `a.mp3`, the code reports the file — it compares the resolved scan
path against the recorded strings verbatim — while the claim (recorded
locations also resolved) says nothing is reported. -/
theorem c8_resolved_mismatch :
    listOrphanFiles ["a.mp3"] (fun _ => true) (fun _ => some "audio/mpeg")
        c8resolve ["a.mp3"] = ["a.mp3"]
      ∧ specOrphanFiles ["a.mp3"] (fun _ => true) (fun _ => some "audio/mpeg")
          c8resolve ["a.mp3"] = [] := by
  exact ⟨rfl, rfl⟩

/-- C8 (amended).  The scan reports exactly the enumerated paths that
are regular files, whose guessed content type is audio, and whose
resolved path is not among the recorded location strings of the catalog
compared as stored (only the path of the scanned file is resolved). -/
theorem c8_orphan_files (paths : List String) (isFile : String → Bool)
    (guess : String → Option String) (resolve : String → String)
    (locations : List String) (p : String) :
    p ∈ listOrphanFiles paths isFile guess resolve locations
      ↔ p ∈ paths ∧ isFile p = true ∧ mimeIsAudio (guess p) = true
          ∧ ¬ resolve p ∈ locations := by
  unfold listOrphanFiles
  simp [List.mem_filter, and_assoc]

/-! ### C10: move with a bad destination -/

/-- C10 (confirmed).  When the resolved destination is not an
existing directory, `move_files` raises `ValueError` before the source
loop starts: no rename and no catalog statement is attempted for any
source. -/
theorem c10_bad_destination (env : MoveEnv) (files0 : List String)
    (rows0 : List Row) (sources : List String) (destination : String)
    (h : env.isDir (env.resolve destination) = false) :
    moveFiles env files0 rows0 sources destination
      = Except.error PyErr.valueError := by
  unfold moveFiles
  simp [h]

theorem c10_bad_destination_witness :
    moveFiles
        { renameOk := fun _ _ => true, updateOk := fun _ => true,
          resolve := fun p => p, isDir := fun _ => false }
        ["/a/x.mp3"] [exLoc1] ["/a/x.mp3"] "/nowhere"
      = Except.error PyErr.valueError :=
  c10_bad_destination _ _ _ _ _ rfl

/-! ### C4: bulk delete of an empty set -/

theorem pyFormat_three_slots_four_args (a b c d : String) :
    pyFormatStr "UPDATE %s SET %s WHERE %s" [a, b, c, d]
      = Except.error PyErr.typeError := rfl

/-- C5 (code bug).  `Model.update` checks the identity precondition
and runs the validation check, but then formats the three-placeholder
template `UPDATE %s SET %s WHERE %s` with four arguments, which raises
`TypeError` unconditionally — the UPDATE statement is never issued for
any input that passes the check; with an unset identity it raises the
precondition `ValueError` as the claim states. -/
theorem c5_update_never_writes :
    (∀ (cat : Catalog) (t : Table) (idcol : String) (metaV : PyVal)
        (fields : MInst), metaV ≠ PyVal.vnone →
        modelCheck fields = Except.ok () →
        modelUpdate cat t idcol metaV fields = Except.error PyErr.typeError)
      ∧ ∀ (cat : Catalog) (t : Table) (idcol : String) (fields : MInst),
          modelUpdate cat t idcol PyVal.vnone fields
            = Except.error PyErr.valueError := by
  constructor
  · intro cat t idcol metaV fields h hchk
    unfold modelUpdate
    have hbeq : (metaV == PyVal.vnone) = false := by
      simp [h]
    rw [if_neg (by simp [hbeq])]
    show (modelCheck fields >>= _) = _
    rw [hchk]
    show (_ : Except PyErr Catalog) = _
    rw [show ∀ (f : Unit → Except PyErr Catalog),
          (Except.ok () >>= f) = f () from fun _ => rfl]
    simp only [pyFormat_three_slots_four_args]
    rfl
  · intro cat t idcol fields
    unfold modelUpdate
    rw [if_pos (by simp)]

theorem c5_update_never_writes_witness :
    modelUpdate exCat1 Table.track_locations "id" (PyVal.vint 1) exTLInst
        = Except.error PyErr.typeError
      ∧ modelUpdate exCat1 Table.track_locations "id" PyVal.vnone exTLInst
          = Except.error PyErr.valueError :=
  ⟨c5_update_never_writes.1 exCat1 Table.track_locations "id" (PyVal.vint 1)
      exTLInst (by decide) (by rfl),
   c5_update_never_writes.2 exCat1 Table.track_locations "id" exTLInst⟩

/-! ### C7: catalog-side orphan scan -/

theorem find_dirPairs (g : String → List String) (ds : List String)
    (d : String) (hd : d ∈ ds) :
    (ds.map (fun x => (x, g x))).find? (fun p => p.1 == d) = some (d, g d) := by
  induction ds with
  | nil => cases hd
  | cons a t ih =>
      rw [List.map_cons, List.find?_cons]
      by_cases h : a = d
      · subst h
        simp
      · have hf : ((a, g a).1 == d) = false := by
          simp [h]
        rw [hf]
        apply ih
        rcases List.mem_cons.mp hd with h1 | h1
        · exact absurd h1.symm h
        · exact h1

theorem mapM_locDirname (locations : List Row)
    (hT : ∀ l ∈ locations, ∃ s, getAttr l "location" = some (DbVal.text s)) :
    locations.mapM locDirname
      = Except.ok (locations.map (fun l => posixDirname (locText l))) := by
  induction locations with
  | nil => rfl
  | cons l ls ih =>
      obtain ⟨s, hs⟩ := hT l (List.mem_cons_self l ls)
      have h1 : locDirname l = Except.ok (posixDirname s) := by
        unfold locDirname
        rw [hs]
      have h2 : locText l = s := by
        unfold locText
        rw [hs]
      rw [List.mapM_cons, h1, ih (fun x hx => hT x (List.mem_cons_of_mem l hx)),
        List.map_cons, h2]
      rfl

/-- A location row whose recorded path is NULL, as the nullable column
allows and the guards in models.py anticipate. -/
def c7NullRow : Row :=
  [("id", DbVal.int 3), ("location", DbVal.null),
   ("filename", DbVal.text "c.mp3"), ("directory", DbVal.null),
   ("filesize", DbVal.null), ("fs_deleted", DbVal.int 0),
   ("needs_verification", DbVal.int 0)]

/-- C7 (counterexample).  A catalog holding one row with a NULL recorded
path and one ordinary row whose file is gone: the claim says the scan
returns exactly the orphaned rows — here the ordinary row, since its
parent directory no longer exists and so lists as empty — but the code
raises `TypeError` at `os.path.dirname(None)` and reports nothing. -/
theorem c7_null_location_crash :
    schListOrphans (fun _ => none) [c7NullRow, exLoc1]
        = Except.error PyErr.typeError
      ∧ fnMatches exLoc1
          (fsListdir (fun _ => none) (posixDirname (locText exLoc1))) = false :=
  ⟨rfl, rfl⟩

/-- C7 (amended).  Provided every location row has a string (non-NULL)
recorded path, the catalog-side orphan scan returns exactly the location
rows whose recorded filename is absent from the current listing of the
parent directory of the recorded path, where a missing directory lists as
empty; the directories listed are the distinct parent directories, each
once.  A single NULL recorded path instead makes the whole scan raise
`TypeError` before listing anything. -/
theorem c7_orphan_scan (fs : String → Option (List String))
    (locations : List Row)
    (hT : ∀ l ∈ locations, ∃ s, getAttr l "location" = some (DbVal.text s)) :
    schListOrphans fs locations
        = Except.ok (locations.filter (fun l =>
            ! fnMatches l (fsListdir fs (posixDirname (locText l)))))
      ∧ (schListedDirs locations).Nodup
      ∧ ∀ d, d ∈ schListedDirs locations
          ↔ ∃ l ∈ locations, posixDirname (locText l) = d := by
  refine ⟨?_, List.nodup_dedup _, ?_⟩
  · unfold schListOrphans
    rw [mapM_locDirname locations hT]
    rw [show ∀ (x : List String) (f : List String → Except PyErr (List Row)),
          (Except.ok x >>= f) = f x from fun _ _ => rfl]
    simp only []
    congr 1
    apply List.filter_congr
    intro l hl
    have hd : posixDirname (locText l)
        ∈ (locations.map (fun l2 => posixDirname (locText l2))).dedup :=
      List.mem_dedup.mpr (List.mem_map_of_mem _ hl)
    rw [find_dirPairs (fun dd => fsListdir fs dd) _ _ hd]
  · intro d
    simp [schListedDirs, List.mem_dedup, List.mem_map]

theorem c7_orphan_scan_witness :
    schListOrphans (fun _ => none) [exLoc1]
        = Except.ok ([exLoc1].filter (fun l =>
            ! fnMatches l (fsListdir (fun _ => none)
              (posixDirname (locText l)))))
      ∧ (schListedDirs [exLoc1]).Nodup
      ∧ ∀ d, d ∈ schListedDirs [exLoc1]
          ↔ ∃ l ∈ [exLoc1], posixDirname (locText l) = d :=
  c7_orphan_scan (fun _ => none) [exLoc1] (by
    intro l hl
    rw [List.mem_singleton] at hl
    subst hl
    exact ⟨"/music/a.mp3", rfl⟩)

/-! ### C9: per-instance ownership of the column descriptors -/

/-- The instance built by `TrackLocation(id=1)`. -/
def c9instA : MInst :=
  [("id", { ty := PyTy.intTy, nullable := false, value := PyVal.vint 1,
            default := PyVal.vnone }),
   ("location", { ty := PyTy.strTy, nullable := true, value := PyVal.vnone,
                  default := PyVal.vnone }),
   ("directory", { ty := PyTy.strTy, nullable := true, value := PyVal.vnone,
                   default := PyVal.vnone }),
   ("filename", { ty := PyTy.strTy, nullable := true, value := PyVal.vnone,
                  default := PyVal.vnone }),
   ("filesize", { ty := PyTy.intTy, nullable := true, value := PyVal.vnone,
                  default := PyVal.vnone }),
   ("fs_deleted", { ty := PyTy.boolTy, nullable := true, value := PyVal.vnone,
                    default := PyVal.vnone }),
   ("needs_verification", { ty := PyTy.boolTy, nullable := true,
                            value := PyVal.vnone, default := PyVal.vnone })]

/-- The class state after `a = TrackLocation(id=1)`. -/
def c9csA : ClassState := { instances := [c9instA], metaIdField := some 0 }

/-- The class state after a subsequent `b = TrackLocation()`. -/
def c9csB : ClassState :=
  { instances := [c9instA, tlBaseFields], metaIdField := some 1 }

/-- C9 (counterexample).  After `a = TrackLocation(id=1)` the shared
`get_id()` reads 1; constructing `b = TrackLocation()` rebinds the
class-shared `_meta.id_field` to the new instance, so `a.get_id()` now
reads None even though the own `id` attribute of `a` still reads 1 — and
`a.delete()` now fails its precondition.  Construction of one instance is
therefore observable through the `get_id()` of another instance and the rows
targeted by its `delete()`. -/
theorem c9_shared_meta :
    construct tlBaseFields "id" { instances := [], metaIdField := none }
        [("id", PyVal.vint 1)] = Except.ok (0, c9csA)
      ∧ construct tlBaseFields "id" c9csA [] = Except.ok (1, c9csB)
      ∧ getId tlBaseFields "id" c9csA = PyVal.vint 1
      ∧ getId tlBaseFields "id" c9csB = PyVal.vnone
      ∧ getattrI c9csB 0 "id" = some (PyVal.vint 1)
      ∧ deleteI tlBaseFields "id" c9csB 0 = Except.error PyErr.valueError := by
  exact ⟨rfl, rfl, rfl, rfl, rfl, rfl⟩

theorem construct_ok (bf : MInst) (ic : String) (cs : ClassState)
    (kw : List (String × PyVal)) (n : Nat) (cs2 : ClassState)
    (h : construct bf ic cs kw = Except.ok (n, cs2)) :
    n = cs.instances.length
      ∧ ∃ inst, cs2.instances = cs.instances ++ [inst]
          ∧ cs2.metaIdField = some cs.instances.length := by
  unfold construct at h
  by_cases hf : (bf.find? (fun p => p.1 == ic)).isSome
  · rw [if_pos hf] at h
    injection h with h2
    have h3 := congrArg Prod.fst h2
    have h4 := congrArg Prod.snd h2
    simp only at h3 h4
    exact ⟨h3.symm, _, by rw [← h4], by rw [← h4]⟩
  · rw [if_neg hf] at h
    cases h

/-- C9 (amended).  Attribute reads and writes, and the `WHERE`
fragments that `update()`/`delete()` aim at, are routed through the
per-instance copied `_fields` and are fully isolated between instances;
but `_meta.id_field` is class-shared and rebound by every construction,
so `get_id()` (and with it the update/delete precondition) reads the
identity value of the most recently constructed instance of the
schema. -/
theorem c9_instance_isolation :
    (∀ (cs : ClassState) (i j : Nat) (c c2 : String) (v : PyVal), i ≠ j →
        getattrI (setattrI cs i c v) j c2 = getattrI cs j c2)
      ∧ (∀ (bf : MInst) (ic : String) (cs : ClassState)
          (kw : List (String × PyVal)) (n : Nat) (cs2 : ClassState)
          (j : Nat) (c : String),
          construct bf ic cs kw = Except.ok (n, cs2) →
          j < cs.instances.length → getattrI cs2 j c = getattrI cs j c)
      ∧ (∀ (cs : ClassState) (i j : Nat) (c ic : String) (v : PyVal), i ≠ j →
          whereExprI (setattrI cs i c v) j ic = whereExprI cs j ic)
      ∧ (∀ (bf : MInst) (ic : String) (cs : ClassState)
          (kw : List (String × PyVal)) (n : Nat) (cs2 : ClassState) (j : Nat),
          construct bf ic cs kw = Except.ok (n, cs2) →
          j < cs.instances.length → whereExprI cs2 j ic = whereExprI cs j ic)
      ∧ ∀ (bf : MInst) (ic : String) (cs : ClassState)
          (kw : List (String × PyVal)) (n : Nat) (cs2 : ClassState),
          construct bf ic cs kw = Except.ok (n, cs2) →
          getId bf ic cs2 = instAttr ((cs2.instances.get? n).getD []) ic := by
  refine ⟨?_, ?_, ?_, ?_, ?_⟩
  · intro cs i j c c2 v hij
    unfold getattrI setattrI
    rw [List.get?_set_ne _ _ hij]
  · intro bf ic cs kw n cs2 j c h hj
    obtain ⟨-, inst, hinst, -⟩ := construct_ok bf ic cs kw n cs2 h
    unfold getattrI
    rw [hinst, List.get?_append hj]
  · intro cs i j c ic v hij
    unfold whereExprI setattrI
    rw [List.get?_set_ne _ _ hij]
  · intro bf ic cs kw n cs2 j h hj
    obtain ⟨-, inst, hinst, -⟩ := construct_ok bf ic cs kw n cs2 h
    unfold whereExprI
    rw [hinst, List.get?_append hj]
  · intro bf ic cs kw n cs2 h
    obtain ⟨hn, inst, hinst, hmeta⟩ := construct_ok bf ic cs kw n cs2 h
    unfold getId
    rw [hmeta, hinst, hn]

theorem c9_instance_isolation_witness :
    getattrI (setattrI c9csB 1 "id" (PyVal.vint 7)) 0 "id"
        = getattrI c9csB 0 "id"
      ∧ getattrI c9csB 0 "location" = getattrI c9csA 0 "location"
      ∧ whereExprI (setattrI c9csB 1 "id" (PyVal.vint 7)) 0 "id"
          = whereExprI c9csB 0 "id"
      ∧ whereExprI c9csB 0 "id" = whereExprI c9csA 0 "id"
      ∧ getId tlBaseFields "id" c9csB
          = instAttr ((c9csB.instances.get? 1).getD []) "id" :=
  ⟨c9_instance_isolation.1 c9csB 1 0 "id" "id" (PyVal.vint 7) (by decide),
   c9_instance_isolation.2.1 tlBaseFields "id" c9csA [] 1 c9csB 0 "location"
     (by rfl) (by decide),
   c9_instance_isolation.2.2.1 c9csB 1 0 "id" "id" (PyVal.vint 7) (by decide),
   c9_instance_isolation.2.2.2.1 tlBaseFields "id" c9csA [] 1 c9csB 0
     (by rfl) (by decide),
   c9_instance_isolation.2.2.2.2 tlBaseFields "id" c9csA [] 1 c9csB (by rfl)⟩

/-! ### C2: supporting lemmas -/

end Mixxxdb
